import Mathlib

/-!
Shallow embedding of `open-vm-tools/lib/misc/hostinfoHV.c` (hypervisor
detection and backdoor invocation logic).

Modelling conventions:
* Machine `uint32` values are `Nat`, understood modulo `2^32` where the C
  code can overflow; all operations used here (`&&&`, `<<<`, `|||`, `^^^`,
  comparisons, `testBit`) act on the 32-bit value directly.
* The CPUID instruction is an opaque platform primitive; it is modelled as
  an environment `cpuid : Nat → CPUIDRegs` mapping a leaf selector to the
  four returned registers, fixed for the life of a process.
* A single backdoor request/response exchange is modelled as an opaque
  backend function from the loaded input registers to the returned
  registers (a "stub hypervisor backend").
* `static` cached variables are modelled by explicit state passing: a step
  function `cached → (returned value, new cached)`.
* Compile-time configuration (`USE_HYPERCALL`) is a boolean parameter.
-/

namespace HostinfoHV

/-- The four 32-bit registers returned by one read of one CPUID leaf
(`CPUIDRegs` in the C source). -/
structure CPUIDRegs where
  eax : Nat
  ebx : Nat
  ecx : Nat
  edx : Nat
deriving DecidableEq, Repr

/-- Standard feature-information leaf (`CPUID_FEATURE_INFORMATION`, leaf 1). -/
def CPUID_FEATURE_INFORMATION : Nat := 1

/-- Base hypervisor identification leaf (`CPUID_HYPERVISOR_LEVEL_0`,
0x40000000). -/
def CPUID_HYPERVISOR_LEVEL_0 : Nat := 0x40000000

/-- Modelled from the spec: the VMware hypervisor-feature leaf
(`CPUID_VMW_FEATURES`, defined in x86cpuid.h, which is not part of this
repository snapshot): "a hypervisor-feature leaf beyond the base leaf"
holding the fast-call capability bits. -/
def CPUID_VMW_FEATURES : Nat := 0x40000010

/-- Bit position of the "running under a hypervisor" feature bit in ECX of
the standard feature leaf (`CPUID_ISSET(CPUID_FEATURE_INFORMATION, ECX,
HYPERVISOR, ...)`, architecturally bit 31). -/
def HYPERVISOR_BIT : Nat := 31

/-- Modelled from the spec: bit position of the `VMCALL_BACKDOOR`
capability flag in ECX of the feature leaf (x86cpuid.h is not part of this
repository snapshot); the "FastCallA" capability bit. -/
def VMCALL_BACKDOOR_BIT : Nat := 0

/-- Modelled from the spec: bit position of the `VMMCALL_BACKDOOR`
capability flag in ECX of the feature leaf (x86cpuid.h is not part of this
repository snapshot); the "FastCallB" capability bit. -/
def VMMCALL_BACKDOOR_BIT : Nat := 1

/-- The VMware hypervisor vendor signature "VMwareVMware" as the three
little-endian register words (ebx, ecx, edx) of leaf 0x40000000
(`CPUID_VMWARE_HYPERVISOR_VENDOR_STRING`). -/
def CPUID_VMWARE_HYPERVISOR_VENDOR_EBX : Nat := 0x61774D56
def CPUID_VMWARE_HYPERVISOR_VENDOR_ECX : Nat := 0x4D566572
def CPUID_VMWARE_HYPERVISOR_VENDOR_EDX : Nat := 0x65726177

/-- Modelled from the spec: `CPUID_IsRawVendor` (x86cpuid.h, not part of
this repository snapshot) — "if its vendor string does not match the
expected vendor": compares the three signature registers of the base
hypervisor leaf against the expected vendor words. -/
def CPUID_IsRawVendor (regs : CPUIDRegs) : Bool :=
  regs.ebx == CPUID_VMWARE_HYPERVISOR_VENDOR_EBX &&
  regs.ecx == CPUID_VMWARE_HYPERVISOR_VENDOR_ECX &&
  regs.edx == CPUID_VMWARE_HYPERVISOR_VENDOR_EDX

/-- The hypervisor-present bit of the standard feature leaf, as read in
`Hostinfo_HypervisorPresent` and `HostinfoBackdoorGetInterface`. -/
def hypervisorBit (cpuid : Nat → CPUIDRegs) : Bool :=
  Nat.testBit (cpuid CPUID_FEATURE_INFORMATION).ecx HYPERVISOR_BIT

/-- `BackdoorInterface` enumeration from the C source.  The constructor
`BACKDOOR_INTERFACE_IOPORT` embeds the source's port-I/O variant (its
source spelling is slightly different for Lean-lexical reasons). -/
inductive BackdoorInterface where
  | BACKDOOR_INTERFACE_NONE
  | BACKDOOR_INTERFACE_VMCALL
  | BACKDOOR_INTERFACE_VMMCALL
  | BACKDOOR_INTERFACE_IOPORT
deriving DecidableEq, Repr

open BackdoorInterface

/-- The interface-selection computation performed by
`HostinfoBackdoorGetInterface` on its first call when `USE_HYPERCALL` is
defined (hostinfoHV.c lines 112-135): check the hypervisor-present bit,
then the VMware vendor signature of leaf 0x40000000, then that the feature
leaf is within the reported maximum, then the two fast-call capability
bits with VMCALL checked first; any failure falls through to the port-I/O
interface. -/
def HostinfoBackdoorComputeInterface (cpuid : Nat → CPUIDRegs) :
    BackdoorInterface :=
  if hypervisorBit cpuid then
    if CPUID_IsRawVendor (cpuid CPUID_HYPERVISOR_LEVEL_0) then
      if CPUID_VMW_FEATURES ≤ (cpuid CPUID_HYPERVISOR_LEVEL_0).eax then
        let features := (cpuid CPUID_VMW_FEATURES).ecx
        if Nat.testBit features VMCALL_BACKDOOR_BIT then
          BACKDOOR_INTERFACE_VMCALL
        else if Nat.testBit features VMMCALL_BACKDOOR_BIT then
          BACKDOOR_INTERFACE_VMMCALL
        else
          BACKDOOR_INTERFACE_IOPORT
      else BACKDOOR_INTERFACE_IOPORT
    else BACKDOOR_INTERFACE_IOPORT
  else BACKDOOR_INTERFACE_IOPORT

/-- `HostinfoBackdoorGetInterface` as a function of the compile-time flag
`USE_HYPERCALL` and the CPUID environment: the value returned by every
call (the cached computation is settled by `hostinfoBackdoorInterfaceStep`
below).  Without `USE_HYPERCALL` the function body is
`return BACKDOOR_INTERFACE_IO;` unconditionally. -/
def HostinfoBackdoorGetInterface (useHypercall : Bool)
    (cpuid : Nat → CPUIDRegs) : BackdoorInterface :=
  if useHypercall then HostinfoBackdoorComputeInterface cpuid
  else BACKDOOR_INTERFACE_IOPORT

/-- One call of `HostinfoBackdoorGetInterface` with its `static
BackdoorInterface interface` cache made explicit: given the cached value,
return (result, new cached value).  With `USE_HYPERCALL`, a cache still
holding `BACKDOOR_INTERFACE_NONE` triggers the computation (which never
stores NONE, lines 133-135); otherwise the cached value is returned.
Without `USE_HYPERCALL` there is no static variable at all and the
function returns the port-I/O interface. -/
def hostinfoBackdoorInterfaceStep (useHypercall : Bool)
    (cpuid : Nat → CPUIDRegs) (cached : BackdoorInterface) :
    BackdoorInterface × BackdoorInterface :=
  if useHypercall then
    if cached = BACKDOOR_INTERFACE_NONE then
      let v := HostinfoBackdoorComputeInterface cpuid
      (v, v)
    else (cached, cached)
  else (BACKDOOR_INTERFACE_IOPORT, cached)

/-- One call of `Hostinfo_HypervisorPresent` with its `static Bool
hypervisorPresent` cache made explicit: if the cache is still false the
bit is (re)read from CPUID and stored; a cached true is returned
directly. -/
def hypervisorPresentStep (cpuid : Nat → CPUIDRegs) (cached : Bool) :
    Bool × Bool :=
  if !cached then
    let v := hypervisorBit cpuid
    (v, v)
  else (cached, cached)

/-- The value returned by the (n+1)-th call of a cached computation,
starting from cache state `s`. -/
def nthCallValue {σ α : Type} (step : σ → α × σ) : σ → Nat → α
  | s, 0 => (step s).1
  | s, n + 1 => nthCallValue step (step s).2 n

/-- `Hostinfo_HypervisorPresent` as a pure function of the CPUID
environment (the value every call returns, per `hypervisorPresentStep`). -/
def Hostinfo_HypervisorPresent (cpuid : Nat → CPUIDRegs) : Bool :=
  hypervisorBit cpuid

/-- `Hostinfo_HypervisorCPUIDSig` (hostinfoHV.c lines 197-223), returning
the allocated buffer as a list of 32-bit words, or `none` for the NULL
return.  If the hypervisor-present bit is unset it returns NULL; otherwise
it always allocates a 4-word buffer holding ebx/ecx/edx of leaf 0x40000000
and a forced zero terminator word, even when the reported maximum leaf is
below 0x40000000 (in which case it additionally logs a diagnostic, see
`hostinfoCPUIDSigLogsDiag`). -/
def Hostinfo_HypervisorCPUIDSig (cpuid : Nat → CPUIDRegs) :
    Option (List Nat) :=
  if Hostinfo_HypervisorPresent cpuid then
    let regs := cpuid CPUID_HYPERVISOR_LEVEL_0
    some [regs.ebx, regs.ecx, regs.edx, 0]
  else none

/-- Whether `Hostinfo_HypervisorCPUIDSig` emits its "CPUID hypervisor bit
is set, but no hypervisor vendor signature is present" log line (lines
209-212): the presence bit is set but leaf 0x40000000 reports a maximum
leaf below 0x40000000. -/
def hostinfoCPUIDSigLogsDiag (cpuid : Nat → CPUIDRegs) : Bool :=
  Hostinfo_HypervisorPresent cpuid &&
  decide ((cpuid CPUID_HYPERVISOR_LEVEL_0).eax < 0x40000000)

/-- `Hostinfo_HypervisorInterfaceSig` (hostinfoHV.c lines 290-317),
returning the allocated buffer as a list of 32-bit words, or `none` for
the NULL return: NULL when the presence bit is unset, when the reported
maximum leaf is below 0x40000001, or when leaf 0x40000001 reports eax = 0;
otherwise a 2-word buffer of that eax and a forced zero terminator. -/
def Hostinfo_HypervisorInterfaceSig (cpuid : Nat → CPUIDRegs) :
    Option (List Nat) :=
  if Hostinfo_HypervisorPresent cpuid then
    if (cpuid CPUID_HYPERVISOR_LEVEL_0).eax < 0x40000001 then none
    else
      let regs := cpuid 0x40000001
      if regs.eax ≠ 0 then some [regs.eax, 0] else none
  else none

/-- The four bytes of a 32-bit word in little-endian memory order, as a
`uint32` is laid out when its buffer is read back as a byte string. -/
def leBytes (w : Nat) : List Nat :=
  [w % 256, w / 256 % 256, w / 65536 % 256, w / 16777216 % 256]

/-- A 32-bit-word buffer read back as the byte sequence of its memory
image. -/
def wordsToBytes (l : List Nat) : List Nat := l.flatMap leBytes

/-- The Xen hypervisor vendor signature "XenVMMXenVMM" compared against by
`Hostinfo_TouchXen` (`CPUID_XEN_HYPERVISOR_VENDOR_STRING`), as its byte
sequence. -/
def CPUID_XEN_HYPERVISOR_VENDOR_BYTES : List Nat :=
  [0x58, 0x65, 0x6E, 0x56, 0x4D, 0x4D, 0x58, 0x65, 0x6E, 0x56, 0x4D, 0x4D]

/-- The C string denoted by a nul-terminated byte buffer: its bytes up to
(excluding) the first nul. -/
def cString (l : List Nat) : List Nat := l.takeWhile (· ≠ 0)

/-- `strcmp(a, b) == 0` for two nul-terminated byte buffers: the byte
sequences up to the first nul coincide. -/
def strcmpEq (a b : List Nat) : Bool := cString a == cString b

/-- The `name` buffer built by `Hostinfo_TouchXen` (lines 371-374) from
the three registers returned by the trapped CPUID, with the fourth word
forced to zero, read back as bytes. -/
def touchXenName (regs : CPUIDRegs) : List Nat :=
  wordsToBytes [regs.ebx, regs.ecx, regs.edx, 0]

/-- `Hostinfo_TouchXen` on its non-faulting path (hostinfoHV.c lines
348-388): the Xen-hook CPUID sequence returned registers `regs`; the
function reconstructs the vendor buffer and returns TRUE exactly when a
full `strcmp` against the Xen vendor signature succeeds, and FALSE (after
logging "Xen detected but hypervisor unrecognized") otherwise. -/
def Hostinfo_TouchXen (regs : CPUIDRegs) : Bool :=
  strcmpEq (touchXenName regs) (CPUID_XEN_HYPERVISOR_VENDOR_BYTES ++ [0])

/-- Modelled from the spec: `BDOOR_MAGIC` (backdoor_def.h, not part of
this repository snapshot), the "fixed 32-bit magic value identifying the
calling convention to the hypervisor". -/
def BDOOR_MAGIC : Nat := 0x564D5868

/-- The 32-bit one's complement `~BDOOR_MAGIC`, the deliberately invalid
marker loaded before the touch probe. -/
def NOT_BDOOR_MAGIC : Nat := 0xFFFFFFFF ^^^ BDOOR_MAGIC

/-- Modelled from the spec: `BDOOR_PORT` (backdoor_def.h, not part of this
repository snapshot), the "fixed 16-bit I/O port number for the PortIO
variant". -/
def BDOOR_PORT : Nat := 0x5658

/-- Modelled from the spec: the `GETVERSION` command opcode
(`BDOOR_CMD_GETVERSION`, backdoor_def.h, not part of this repository
snapshot). -/
def BDOOR_CMD_GETVERSION : Nat := 10

/-- Modelled from the spec: the `GET_VCPU_INFO` command opcode
(`BDOOR_CMD_GET_VCPU_INFO`, backdoor_def.h, not part of this repository
snapshot). -/
def BDOOR_CMD_GET_VCPU_INFO : Nat := 68

/-- Modelled from the spec: the `NESTING_CONTROL` command opcode
(`BDOOR_CMD_NESTING_CONTROL`, backdoor_def.h, not part of this repository
snapshot); a 16-bit command opcode, so that the sub-command shifted left
by 16 occupies disjoint bits. -/
def BDOOR_CMD_NESTING_CONTROL : Nat := 44

/-- Modelled from the spec: the `QUERY` sub-command of `NESTING_CONTROL`
(`NESTING_CONTROL_QUERY`, backdoor_def.h, not part of this repository
snapshot). -/
def NESTING_CONTROL_QUERY : Nat := 2

/-- Modelled from the spec: the fixed reserved bit position in the
response of `GET_VCPU_INFO` (`BDOOR_CMD_VCPU_RESERVED`, backdoor_def.h,
not part of this repository snapshot): "a fixed reserved bit" acting as
the supported/unsupported discriminator. -/
def BDOOR_CMD_VCPU_RESERVED : Nat := 31

/-- Input registers loaded for one backdoor exchange: eax (magic), ebx,
ecx (command), dx (port). -/
structure BackdoorIn where
  eax : Nat
  ebx : Nat
  ecx : Nat
  dx : Nat
deriving DecidableEq, Repr

/-- Output registers observed after one backdoor exchange. -/
structure BackdoorOut where
  eax : Nat
  ebx : Nat
  ecx : Nat
deriving DecidableEq, Repr

/-- The register image loaded by `Hostinfo_TouchBackDoor` before issuing
the port-I/O exchange: magic in eax, the deliberately invalid marker
`~BDOOR_MAGIC` in ebx, the GETVERSION command in ecx, the backdoor port in
dx (hostinfoHV.c lines 503-511 and 780-797). -/
def touchBackDoorInput : BackdoorIn :=
  ⟨BDOOR_MAGIC, NOT_BDOOR_MAGIC, BDOOR_CMD_GETVERSION, BDOOR_PORT⟩

/-- `Hostinfo_TouchBackDoor`'s port-I/O exchange path (the whole function
on Windows, lines 486-520, and the default interface case on other
platforms, lines 779-801), over a stub backdoor backend `bd` mapping the
loaded input registers to the returned registers: perform the GETVERSION
exchange with the invalid marker in ebx and return TRUE exactly when the
returned ebx holds `BDOOR_MAGIC`. -/
def Hostinfo_TouchBackDoor (bd : BackdoorIn → BackdoorOut) : Bool :=
  (bd touchBackDoorInput).ebx == BDOOR_MAGIC

/-- The command word issued by `Hostinfo_NestingSupported`:
`NESTING_CONTROL_QUERY << 16 | BDOOR_CMD_NESTING_CONTROL` (lines 597 and
903). -/
def nestingControlCmd : Nat :=
  NESTING_CONTROL_QUERY <<< 16 ||| BDOOR_CMD_NESTING_CONTROL

/-- `Hostinfo_NestingSupported` (hostinfoHV.c lines 594-628 and 899-926)
over a stub backdoor backend `bd` mapping a command word to the response
register: issue the packed nesting-control query and return TRUE exactly
when the unsigned response is ≥ `NESTING_CONTROL_QUERY` and is not the
all-ones sentinel `~0U`. -/
def Hostinfo_NestingSupported (bd : Nat → Nat) : Bool :=
  let result := bd nestingControlCmd
  decide (NESTING_CONTROL_QUERY ≤ result) && (result != 0xFFFFFFFF)

/-- `Hostinfo_VCPUInfoBackdoor` (hostinfoHV.c lines 652-684 and 950-975)
over a stub backdoor backend `bd` mapping a command word to the response
register: issue `GET_VCPU_INFO` and return TRUE exactly when the reserved
bit of the response is clear (command implemented) and the caller's
requested bit is set. -/
def Hostinfo_VCPUInfoBackdoor (bd : Nat → Nat) (bit : Nat) : Bool :=
  let result := bd BDOOR_CMD_GET_VCPU_INFO
  (result &&& (1 <<< BDOOR_CMD_VCPU_RESERVED) == 0) &&
  (result &&& (1 <<< bit) != 0)

/-- A concrete CPUID environment describing a VMware hypervisor that
advertises the VMCALL fast-call capability: hypervisor bit set in leaf 1,
"VMwareVMware" vendor words and a maximum leaf covering the feature leaf
in leaf 0x40000000, and the VMCALL capability bit set in the feature
leaf's ecx.  Used to evaluate the model at a concrete input. -/
def vmwareVmcallEnv : Nat → CPUIDRegs := fun leaf =>
  if leaf = CPUID_FEATURE_INFORMATION then ⟨0, 0, 0x80000000, 0⟩
  else if leaf = CPUID_HYPERVISOR_LEVEL_0 then
    ⟨CPUID_VMW_FEATURES, CPUID_VMWARE_HYPERVISOR_VENDOR_EBX,
     CPUID_VMWARE_HYPERVISOR_VENDOR_ECX, CPUID_VMWARE_HYPERVISOR_VENDOR_EDX⟩
  else ⟨0, 0, 1, 0⟩

/-! ### Helper lemmas -/

theorem and_one_shiftLeft (n k : Nat) :
    n &&& (1 <<< k) = (n.testBit k).toNat * 2 ^ k := by
  rw [Nat.shiftLeft_eq, one_mul, Nat.and_two_pow]

theorem and_one_shiftLeft_beq_zero (n k : Nat) :
    (n &&& (1 <<< k) == 0) = !n.testBit k := by
  rw [and_one_shiftLeft]
  cases h : n.testBit k
  · simp
  · simp [Nat.pow_eq_zero]

theorem and_one_shiftLeft_bne_zero (n k : Nat) :
    (n &&& (1 <<< k) != 0) = n.testBit k := by
  rw [bne, and_one_shiftLeft_beq_zero, Bool.not_not]

theorem vcpuInfoBackdoor_eq (bd : Nat → Nat) (bit : Nat) :
    Hostinfo_VCPUInfoBackdoor bd bit =
      (!(bd BDOOR_CMD_GET_VCPU_INFO).testBit BDOOR_CMD_VCPU_RESERVED &&
        (bd BDOOR_CMD_GET_VCPU_INFO).testBit bit) := by
  simp only [Hostinfo_VCPUInfoBackdoor]
  rw [and_one_shiftLeft_beq_zero, and_one_shiftLeft_bne_zero]

theorem computeInterface_ne_none (cpuid : Nat → CPUIDRegs) :
    HostinfoBackdoorComputeInterface cpuid ≠ BACKDOOR_INTERFACE_NONE := by
  simp only [HostinfoBackdoorComputeInterface]
  split_ifs <;> simp

theorem nthCallValue_const {σ α : Type} (step : σ → α × σ) (s : σ) (x : α)
    (t : σ) (h1 : step s = (x, t)) (h2 : step t = (x, t)) :
    ∀ n, nthCallValue step s n = x
  | 0 => by simp [nthCallValue, h1]
  | n + 1 => by
    have : (step s).2 = t := by rw [h1]
    rw [nthCallValue, this]
    exact nthCallValue_const step t x t h2 h2 n

/-! ### Claims -/

/-- C2: for every backdoor response value, `Hostinfo_VCPUInfoBackdoor`
with any caller-supplied bit position returns false whenever the fixed
reserved bit `BDOOR_CMD_VCPU_RESERVED` is set in the response, regardless
of the caller-specified bit; when the reserved bit is clear, it returns
true if and only if the caller-specified bit is set in the response. -/
theorem vcpuInfoBackdoor_reserved_precedence (result bit : Nat) :
    (Nat.testBit result BDOOR_CMD_VCPU_RESERVED = true →
      Hostinfo_VCPUInfoBackdoor (fun _ => result) bit = false) ∧
    (Nat.testBit result BDOOR_CMD_VCPU_RESERVED = false →
      (Hostinfo_VCPUInfoBackdoor (fun _ => result) bit = true ↔
        Nat.testBit result bit = true)) := by
  rw [vcpuInfoBackdoor_eq]
  constructor
  · intro h
    simp [h]
  · intro h
    simp [h]

/-- Witness for C2: at the concrete response `0x80000004` (reserved bit 31
set), the query for bit 2 returns false even though bit 2 is set; and at
response `0x4` (reserved bit clear) the query for bit 2 returns true. -/
theorem vcpuInfoBackdoor_reserved_precedence_witness :
    Hostinfo_VCPUInfoBackdoor (fun _ => 0x80000004) 2 = false ∧
    Hostinfo_VCPUInfoBackdoor (fun _ => 0x4) 2 = true := by
  refine ⟨(vcpuInfoBackdoor_reserved_precedence 0x80000004 2).1 (by decide), ?_⟩
  exact ((vcpuInfoBackdoor_reserved_precedence 0x4 2).2 (by decide)).mpr (by decide)

/-- C10: calling `Hostinfo_VCPUInfoBackdoor` with `bit` equal to the
reserved bit position `BDOOR_CMD_VCPU_RESERVED` returns false for every
possible backdoor response value: if the reserved bit is set the
unimplemented check fails, and if it is clear the requested-bit test on
that same position also fails. -/
theorem vcpuInfoBackdoor_reserved_bit_always_false (result : Nat) :
    Hostinfo_VCPUInfoBackdoor (fun _ => result) BDOOR_CMD_VCPU_RESERVED =
      false := by
  rw [vcpuInfoBackdoor_eq]
  cases h : Nat.testBit result BDOOR_CMD_VCPU_RESERVED <;> simp [h]

/-- C3: `Hostinfo_NestingSupported` issues a command word whose upper 16
bits pack the `NESTING_CONTROL_QUERY` sub-command, and returns true
exactly when the response register is numerically ≥
`NESTING_CONTROL_QUERY` and is not the all-ones sentinel `0xFFFFFFFF`; in
particular it returns false for the all-ones sentinel. -/
theorem nestingSupported_spec (bd : Nat → Nat) :
    nestingControlCmd >>> 16 = NESTING_CONTROL_QUERY ∧
    (Hostinfo_NestingSupported bd = true ↔
      NESTING_CONTROL_QUERY ≤ bd nestingControlCmd ∧
      bd nestingControlCmd ≠ 0xFFFFFFFF) ∧
    Hostinfo_NestingSupported (fun _ => 0xFFFFFFFF) = false := by
  refine ⟨by decide, ?_, by decide⟩
  simp [Hostinfo_NestingSupported]

/-- C4: `Hostinfo_TouchBackDoor` loads the deliberately invalid marker
`~BDOOR_MAGIC` (distinct from `BDOOR_MAGIC`) into ebx before issuing the
version-query command, and, for every backdoor exchange backend, returns
true exactly when after the call ebx holds the expected magic value
`BDOOR_MAGIC`, and false when the marker survives unchanged. -/
theorem touchBackDoor_spec (bd : BackdoorIn → BackdoorOut) :
    touchBackDoorInput.ebx = NOT_BDOOR_MAGIC ∧
    NOT_BDOOR_MAGIC ≠ BDOOR_MAGIC ∧
    touchBackDoorInput.ecx = BDOOR_CMD_GETVERSION ∧
    (Hostinfo_TouchBackDoor bd = true ↔
      (bd touchBackDoorInput).ebx = BDOOR_MAGIC) := by
  refine ⟨rfl, by decide, rfl, ?_⟩
  simp [Hostinfo_TouchBackDoor]

/-- Witness for C4: a stub backend that echoes `BDOOR_MAGIC` back in ebx
makes the touch probe return true. -/
theorem touchBackDoor_spec_witness :
    Hostinfo_TouchBackDoor (fun _ => ⟨0x100, BDOOR_MAGIC, 0⟩) = true :=
  (touchBackDoor_spec (fun _ => ⟨0x100, BDOOR_MAGIC, 0⟩)).2.2.2.mpr rfl

/-- Witness for C3: a stub backend responding 5 (≥ NESTING_CONTROL_QUERY,
not the sentinel) makes the nesting query return true. -/
theorem nestingSupported_spec_witness :
    Hostinfo_NestingSupported (fun _ => 5) = true :=
  (nestingSupported_spec (fun _ => 5)).2.1.mpr (by decide)

/-- C9: on the non-faulting path, `Hostinfo_TouchXen` builds the vendor
buffer from the three returned registers with a forced trailing zero word,
and returns true if and only if that buffer, read as a nul-terminated
string, compares equal by full string comparison to the Xen vendor
signature constant; every other outcome returns false (the "unrecognized
variant" logging is a side effect not modelled). -/
theorem touchXen_spec (regs : CPUIDRegs) :
    touchXenName regs =
      leBytes regs.ebx ++ leBytes regs.ecx ++ leBytes regs.edx ++
        [0, 0, 0, 0] ∧
    (Hostinfo_TouchXen regs = true ↔
      cString (touchXenName regs) = CPUID_XEN_HYPERVISOR_VENDOR_BYTES) := by
  constructor
  · simp [touchXenName, wordsToBytes, leBytes]
  · have h : cString (CPUID_XEN_HYPERVISOR_VENDOR_BYTES ++ [0]) =
        CPUID_XEN_HYPERVISOR_VENDOR_BYTES := by decide
    simp [Hostinfo_TouchXen, strcmpEq, h]

/-- Witness for C9: registers holding exactly "XenVMMXenVMM" make the
probe return true. -/
theorem touchXen_spec_witness :
    Hostinfo_TouchXen ⟨0x40000000, 0x566E6558, 0x65584D4D, 0x4D4D566E⟩ =
      true :=
  (touchXen_spec ⟨0x40000000, 0x566E6558, 0x65584D4D, 0x4D4D566E⟩).2.mpr
    (by decide)

/-- C5: every non-null buffer returned by `Hostinfo_HypervisorCPUIDSig`
(resp. `Hostinfo_HypervisorInterfaceSig`) is exactly 4 (resp. 2) 32-bit
words — 4*N bytes with N = 4 (resp. N = 2) — and its last 32-bit word is
zero, so the byte image always ends in a zero byte and is nul-terminated
when read as a string. -/
theorem sig_buffers_nul_terminated (cpuid : Nat → CPUIDRegs) :
    (∀ l, Hostinfo_HypervisorCPUIDSig cpuid = some l →
      l.length = 4 ∧ l.getLast? = some 0 ∧
      (wordsToBytes l).length = 4 * 4 ∧ (wordsToBytes l).getLast? = some 0) ∧
    (∀ l, Hostinfo_HypervisorInterfaceSig cpuid = some l →
      l.length = 2 ∧ l.getLast? = some 0 ∧
      (wordsToBytes l).length = 4 * 2 ∧ (wordsToBytes l).getLast? = some 0) := by
  constructor
  · intro l h
    simp only [Hostinfo_HypervisorCPUIDSig] at h
    split_ifs at h
    obtain rfl := (Option.some.injEq _ _).mp h
    exact ⟨rfl, rfl, rfl, rfl⟩
  · intro l h
    simp only [Hostinfo_HypervisorInterfaceSig] at h
    split_ifs at h
    obtain rfl := (Option.some.injEq _ _).mp h
    exact ⟨rfl, rfl, rfl, rfl⟩

/-- Witness for C5: at a concrete environment the vendor-signature buffer
is the 4-word, zero-terminated buffer the theorem describes. -/
theorem sig_buffers_nul_terminated_witness :
    ([5, 0x80000000, 7, 0] : List Nat).length = 4 ∧
    (wordsToBytes [5, 0x80000000, 7, 0]).getLast? = some 0 :=
  ⟨((sig_buffers_nul_terminated (fun _ => ⟨0, 5, 0x80000000, 7⟩)).1
      [5, 0x80000000, 7, 0] (by decide)).1,
   ((sig_buffers_nul_terminated (fun _ => ⟨0, 5, 0x80000000, 7⟩)).1
      [5, 0x80000000, 7, 0] (by decide)).2.2.2⟩

/-- C7: when the hypervisor presence bit is set but leaf 0x40000000
reports a maximum leaf below 0x40000000, `Hostinfo_HypervisorCPUIDSig`
logs its diagnostic and still allocates and returns a non-null 4-word
(16-byte) signature buffer built from ebx/ecx/edx of that leaf, rather
than returning null. -/
theorem cpuidSig_low_max_still_allocates (cpuid : Nat → CPUIDRegs)
    (hp : Hostinfo_HypervisorPresent cpuid = true)
    (hl : (cpuid CPUID_HYPERVISOR_LEVEL_0).eax < 0x40000000) :
    hostinfoCPUIDSigLogsDiag cpuid = true ∧
    Hostinfo_HypervisorCPUIDSig cpuid =
      some [(cpuid CPUID_HYPERVISOR_LEVEL_0).ebx,
            (cpuid CPUID_HYPERVISOR_LEVEL_0).ecx,
            (cpuid CPUID_HYPERVISOR_LEVEL_0).edx, 0] ∧
    Hostinfo_HypervisorCPUIDSig cpuid ≠ none := by
  refine ⟨?_, ?_, ?_⟩
  · simp [hostinfoCPUIDSigLogsDiag, hp, hl]
  · simp [Hostinfo_HypervisorCPUIDSig, hp]
  · simp [Hostinfo_HypervisorCPUIDSig, hp]

/-- Witness for C7: concrete environment with the presence bit set and a
reported maximum leaf of 0 still yields a non-null signature buffer. -/
theorem cpuidSig_low_max_still_allocates_witness :
    Hostinfo_HypervisorCPUIDSig (fun _ => ⟨0, 5, 0x80000000, 7⟩) =
      some [5, 0x80000000, 7, 0] :=
  (cpuidSig_low_max_still_allocates (fun _ => ⟨0, 5, 0x80000000, 7⟩)
    (by decide) (by decide)).2.1

/-- C8: `Hostinfo_HypervisorInterfaceSig` returns a non-null signature
exactly when the presence bit is set, the base leaf's reported maximum
reaches 0x40000001, and the eax field of leaf 0x40000001 is nonzero — and
in that case the buffer holds that eax followed by a zero word. -/
theorem interfaceSig_spec (cpuid : Nat → CPUIDRegs) :
    (Hostinfo_HypervisorInterfaceSig cpuid ≠ none ↔
      Hostinfo_HypervisorPresent cpuid = true ∧
      0x40000001 ≤ (cpuid CPUID_HYPERVISOR_LEVEL_0).eax ∧
      (cpuid 0x40000001).eax ≠ 0) ∧
    (Hostinfo_HypervisorPresent cpuid = true →
      0x40000001 ≤ (cpuid CPUID_HYPERVISOR_LEVEL_0).eax →
      (cpuid 0x40000001).eax ≠ 0 →
      Hostinfo_HypervisorInterfaceSig cpuid =
        some [(cpuid 0x40000001).eax, 0]) := by
  constructor
  · unfold Hostinfo_HypervisorInterfaceSig
    split_ifs <;> simp_all
  · intro hp hm hz
    simp [Hostinfo_HypervisorInterfaceSig, hp, Nat.not_lt.mpr hm, hz]

/-- Witness for C8: a concrete environment reaching leaf 0x40000001 with
a nonzero revision yields the 2-word signature. -/
theorem interfaceSig_spec_witness :
    Hostinfo_HypervisorInterfaceSig (fun _ => ⟨0x40000001, 0, 0x80000000, 0⟩) =
      some [0x40000001, 0] :=
  (interfaceSig_spec (fun _ => ⟨0x40000001, 0, 0x80000000, 0⟩)).2
    (by decide) (by decide) (by decide)

/-- C1: `HostinfoBackdoorGetInterface` never returns
`BACKDOOR_INTERFACE_NONE`; when fast-call support is compiled out it
returns the port-I/O interface unconditionally; and otherwise it returns
port I/O whenever the hypervisor-present bit is unset, the vendor string
mismatches, the feature leaf is unavailable, or neither fast-call
capability bit is set — with the VMCALL capability bit checked before the
VMMCALL bit (VMCALL wins whenever it is set, VMMCALL is selected only
when VMCALL's bit is clear). -/
theorem backdoorGetInterface_spec (useHypercall : Bool)
    (cpuid : Nat → CPUIDRegs) :
    HostinfoBackdoorGetInterface useHypercall cpuid ≠
      BACKDOOR_INTERFACE_NONE ∧
    (useHypercall = false →
      HostinfoBackdoorGetInterface useHypercall cpuid =
        BACKDOOR_INTERFACE_IOPORT) ∧
    (hypervisorBit cpuid = false →
      HostinfoBackdoorGetInterface useHypercall cpuid =
        BACKDOOR_INTERFACE_IOPORT) ∧
    (CPUID_IsRawVendor (cpuid CPUID_HYPERVISOR_LEVEL_0) = false →
      HostinfoBackdoorGetInterface useHypercall cpuid =
        BACKDOOR_INTERFACE_IOPORT) ∧
    ((cpuid CPUID_HYPERVISOR_LEVEL_0).eax < CPUID_VMW_FEATURES →
      HostinfoBackdoorGetInterface useHypercall cpuid =
        BACKDOOR_INTERFACE_IOPORT) ∧
    (Nat.testBit (cpuid CPUID_VMW_FEATURES).ecx VMCALL_BACKDOOR_BIT = false →
      Nat.testBit (cpuid CPUID_VMW_FEATURES).ecx VMMCALL_BACKDOOR_BIT = false →
      HostinfoBackdoorGetInterface useHypercall cpuid =
        BACKDOOR_INTERFACE_IOPORT) ∧
    (useHypercall = true →
      hypervisorBit cpuid = true →
      CPUID_IsRawVendor (cpuid CPUID_HYPERVISOR_LEVEL_0) = true →
      CPUID_VMW_FEATURES ≤ (cpuid CPUID_HYPERVISOR_LEVEL_0).eax →
      Nat.testBit (cpuid CPUID_VMW_FEATURES).ecx VMCALL_BACKDOOR_BIT = true →
      HostinfoBackdoorGetInterface useHypercall cpuid =
        BACKDOOR_INTERFACE_VMCALL) ∧
    (useHypercall = true →
      hypervisorBit cpuid = true →
      CPUID_IsRawVendor (cpuid CPUID_HYPERVISOR_LEVEL_0) = true →
      CPUID_VMW_FEATURES ≤ (cpuid CPUID_HYPERVISOR_LEVEL_0).eax →
      Nat.testBit (cpuid CPUID_VMW_FEATURES).ecx VMCALL_BACKDOOR_BIT = false →
      Nat.testBit (cpuid CPUID_VMW_FEATURES).ecx VMMCALL_BACKDOOR_BIT = true →
      HostinfoBackdoorGetInterface useHypercall cpuid =
        BACKDOOR_INTERFACE_VMMCALL) := by
  cases useHypercall with
  | false => simp [HostinfoBackdoorGetInterface]
  | true =>
    refine ⟨?_, by simp, ?_, ?_, ?_, ?_, ?_, ?_⟩ <;>
      simp only [HostinfoBackdoorGetInterface, if_true] <;>
      first
      | exact computeInterface_ne_none cpuid
      | (intros
         simp only [HostinfoBackdoorComputeInterface]
         split_ifs <;> first | rfl | omega | simp_all)

/-- Witness for C1: on the concrete VMware environment with the VMCALL
bit advertised, the selector picks the VMCALL interface. -/
theorem backdoorGetInterface_spec_witness :
    HostinfoBackdoorGetInterface true vmwareVmcallEnv =
      BACKDOOR_INTERFACE_VMCALL :=
  (backdoorGetInterface_spec true vmwareVmcallEnv).2.2.2.2.2.2.1 rfl
    (by decide) (by decide) (by decide) (by decide)

/-- C6: within one process lifetime (a fixed CPUID environment), every
one of the first N+1 calls of the cached presence check returns the same
value, and likewise for the cached interface selector; moreover the caches
are monotone: a presence cache already holding true stays true and keeps
returning true, and an interface cache already holding a determined
interface is returned unchanged. -/
theorem caching_idempotent_monotone (useHypercall : Bool)
    (cpuid : Nat → CPUIDRegs) (n : Nat) :
    nthCallValue (hypervisorPresentStep cpuid) false n =
      Hostinfo_HypervisorPresent cpuid ∧
    nthCallValue (hostinfoBackdoorInterfaceStep useHypercall cpuid)
        BACKDOOR_INTERFACE_NONE n =
      HostinfoBackdoorGetInterface useHypercall cpuid ∧
    hypervisorPresentStep cpuid true = (true, true) ∧
    (∀ i, i ≠ BACKDOOR_INTERFACE_NONE →
      hostinfoBackdoorInterfaceStep true cpuid i = (i, i)) := by
  refine ⟨?_, ?_, by simp [hypervisorPresentStep], ?_⟩
  · exact nthCallValue_const _ _ _ (hypervisorBit cpuid)
      (by simp [hypervisorPresentStep, Hostinfo_HypervisorPresent])
      (by cases h : hypervisorBit cpuid <;>
            simp [hypervisorPresentStep, Hostinfo_HypervisorPresent, h]) n
  · cases useHypercall with
    | false =>
      exact nthCallValue_const _ _ _ BACKDOOR_INTERFACE_NONE
        (by simp [hostinfoBackdoorInterfaceStep, HostinfoBackdoorGetInterface])
        (by simp [hostinfoBackdoorInterfaceStep, HostinfoBackdoorGetInterface])
        n
    | true =>
      exact nthCallValue_const _ _ _ (HostinfoBackdoorComputeInterface cpuid)
        (by simp [hostinfoBackdoorInterfaceStep, HostinfoBackdoorGetInterface])
        (by simp [hostinfoBackdoorInterfaceStep, HostinfoBackdoorGetInterface,
                  computeInterface_ne_none cpuid]) n
  · intro i hi
    simp [hostinfoBackdoorInterfaceStep, hi]

/-- Witness for C6: a cache already holding the port-I/O interface is
returned unchanged by the next call. -/
theorem caching_idempotent_monotone_witness :
    hostinfoBackdoorInterfaceStep true (fun _ => ⟨0, 0, 0, 0⟩)
        BACKDOOR_INTERFACE_IOPORT =
      (BACKDOOR_INTERFACE_IOPORT, BACKDOOR_INTERFACE_IOPORT) :=
  (caching_idempotent_monotone true (fun _ => ⟨0, 0, 0, 0⟩) 0).2.2.2
    BACKDOOR_INTERFACE_IOPORT (by decide)

end HostinfoHV
